import Mathlib

/-!
Verification of `scripts/generate_benchmark_charts.py` (LSPbridge benchmark
visualization generator). The Python script is shallowly embedded: JSON
benchmark documents become structures, the filesystem inputs become explicit
data, and filesystem effects (directory creation, file writes) become an
explicit action trace. Matplotlib chart rendering is opaque binary output and
is abstracted as an arbitrary string of image bytes per chart; Python float
formatting (`:.2f`) is abstracted as an arbitrary formatting function. Neither
abstraction is inspected by any theorem below.
-/

/-- One benchmark sample inside a run: schema
`{name, group, mean_ms, std_dev_ns}` (spec section 6; used at
`generate_benchmark_charts.py` lines 91-99 and 250-254). Floats are modelled
as rationals. -/
structure Benchmark where
  name : String
  group : String
  mean_ms : ℚ
  std_dev_ns : ℚ
deriving DecidableEq

/-- One parsed benchmark JSON document:
`{timestamp: string, commit: string, benchmarks: [...]}`. `timestamp` and
`commit` are `Option` because the Python code accesses them with `dict.get`,
which yields `None` when the key is absent. -/
structure BenchmarkRun where
  timestamp : Option String
  commit : Option String
  benchmarks : List Benchmark
deriving DecidableEq

/-- One entry of the archive directory, as seen by the loop at lines 50-61:
its name, whether it is a subdirectory, and the result of loading each of its
files matching `*_parsed.json`, in glob order. `none` models a file whose
`open`/`json.load` raises `FileNotFoundError` or `json.JSONDecodeError`. -/
structure ArchiveSubdir where
  name : String
  isDir : Bool
  parsedFiles : List (Option BenchmarkRun)
deriving DecidableEq

/-- The `latest` directory (lines 64-76): whether the sentinel file
`latest.json` exists, and the load results of the files matching
`*_parsed.json` there, in glob order. -/
structure LatestDir where
  sentinelExists : Bool
  parsedFiles : List (Option BenchmarkRun)
deriving DecidableEq

/-- The filesystem input of one invocation: the archive directory
(`none` when `archive_dir.exists()` is false) and the latest directory. -/
structure FS where
  archive : Option (List ArchiveSubdir)
  latest : LatestDir
deriving DecidableEq

/-- Code-point comparison of characters, as Python compares strings. -/
def charLtNat (a b : Char) : Bool := a.toNat < b.toNat

/-- Lexicographic code-point order on character lists: the order Python uses
for `sorted()` over path strings sharing a common directory prefix. -/
def lexLt : List Char → List Char → Bool
  | [], [] => false
  | [], _ :: _ => true
  | _ :: _, [] => false
  | a :: as, b :: bs =>
    if charLtNat a b then true
    else if charLtNat b a then false
    else lexLt as bs

/-- Strict lexicographic order on strings (Python `<` on `str`). -/
def strLt (a b : String) : Bool := lexLt a.data b.data

/-- Stable insertion of a directory entry into a name-sorted list: the entry
goes in front of the first element that is not strictly smaller. -/
def insertByName (d : ArchiveSubdir) : List ArchiveSubdir → List ArchiveSubdir
  | [] => [d]
  | e :: es => if strLt e.name d.name then e :: insertByName d es else d :: e :: es

/-- Stable sort of archive directory entries by name: the
`sorted(self.archive_dir.iterdir())` of line 50 (all entries share the
archive-directory prefix, so path order is name order). -/
def sortEntries : List ArchiveSubdir → List ArchiveSubdir
  | [] => []
  | d :: ds => insertByName d (sortEntries ds)

/-- The loop body of lines 51-61 for one archive entry: non-directories are
skipped (`continue`), an empty glob yields nothing, otherwise the first
`*_parsed.json` file is opened and parsed; a load failure is logged and
skipped. -/
def loadSubdir (d : ArchiveSubdir) : Option BenchmarkRun :=
  if d.isDir then
    match d.parsedFiles with
    | [] => none
    | f :: _ => f
  else none

/-- Archive phase of `load_benchmark_data` (lines 46-61): when the archive
directory exists, loads at most one run per sorted entry. -/
def load_archive (fs : FS) : List BenchmarkRun :=
  match fs.archive with
  | none => []
  | some entries => (sortEntries entries).filterMap loadSubdir

/-- `BenchmarkVisualizer.load_benchmark_data` (lines 44-78): archive runs in
sorted-subdirectory order, then the first latest `*_parsed.json` file is
appended when the sentinel `latest.json` exists, the file loads, and no
already-loaded run has an equal `timestamp` (Python `==` on `dict.get`
results, i.e. `Option String` equality). -/
def load_benchmark_data (fs : FS) : List BenchmarkRun :=
  let data := load_archive fs
  if fs.latest.sentinelExists then
    match fs.latest.parsedFiles with
    | [] => data
    | none :: _ => data
    | some latest_data :: _ =>
      if data.any (fun d => d.timestamp == latest_data.timestamp) then data
      else data ++ [latest_data]
  else data

/-- Membership is preserved by `insertByName`. -/
theorem mem_insertByName (a d : ArchiveSubdir) (l : List ArchiveSubdir) :
    a ∈ insertByName d l ↔ a = d ∨ a ∈ l := by
  induction l with
  | nil => simp [insertByName]
  | cons e es ih =>
    rw [insertByName]
    by_cases h : strLt e.name d.name = true
    · rw [if_pos h, List.mem_cons, List.mem_cons, ih]
      tauto
    · rw [if_neg h]
      exact List.mem_cons

/-- Membership is preserved by `sortEntries`. -/
theorem mem_sortEntries (a : ArchiveSubdir) (l : List ArchiveSubdir) :
    a ∈ sortEntries l ↔ a ∈ l := by
  induction l with
  | nil => simp [sortEntries]
  | cons d ds ih => simp [sortEntries, mem_insertByName, ih]

/-- `insertByName` grows the length by one. -/
theorem length_insertByName (d : ArchiveSubdir) (l : List ArchiveSubdir) :
    (insertByName d l).length = l.length + 1 := by
  induction l with
  | nil => simp [insertByName]
  | cons e es ih =>
    by_cases h : strLt e.name d.name = true
    · simp [insertByName, h, ih]
    · simp [insertByName, h]

/-- `sortEntries` preserves length. -/
theorem length_sortEntries (l : List ArchiveSubdir) :
    (sortEntries l).length = l.length := by
  induction l with
  | nil => rfl
  | cons d ds ih => simp [sortEntries, length_insertByName, ih]

/-- When every entry of a list is a directory whose first globbed file loads
successfully, the archive loop keeps exactly one run per entry. -/
theorem filterMap_loadSubdir_eq_map (l : List ArchiveSubdir)
    (runOf : ArchiveSubdir → BenchmarkRun)
    (h : ∀ d ∈ l, loadSubdir d = some (runOf d)) :
    l.filterMap loadSubdir = l.map runOf := by
  induction l with
  | nil => rfl
  | cons d ds ih =>
    have hd := h d (by simp)
    have hds : ∀ e ∈ ds, loadSubdir e = some (runOf e) := fun e he => h e (by simp [he])
    simp [List.filterMap_cons, hd, ih hds]

/-- A directory entry with at least one successfully loading first file is
kept by the loop body. -/
theorem loadSubdir_eq_of_good (d : ArchiveSubdir) (r : BenchmarkRun)
    (extra : List (Option BenchmarkRun))
    (hdir : d.isDir = true) (hf : d.parsedFiles = some r :: extra) :
    loadSubdir d = some r := by
  simp [loadSubdir, hdir, hf]

/-- C1: when the latest run is loaded and its timestamp string equals the
timestamp of some run already loaded from the archive, `load_benchmark_data`
does not append the latest run, and the result length is the archive count
alone. -/
theorem load_benchmark_data_skips_duplicate_latest (fs : FS) (s : String)
    (latestRun : BenchmarkRun) (rest : List (Option BenchmarkRun))
    (hsent : fs.latest.sentinelExists = true)
    (hfiles : fs.latest.parsedFiles = some latestRun :: rest)
    (hts : latestRun.timestamp = some s)
    (har : ∃ r ∈ load_archive fs, r.timestamp = some s) :
    load_benchmark_data fs = load_archive fs ∧
    (load_benchmark_data fs).length = (load_archive fs).length := by
  obtain ⟨r, hr, hrts⟩ := har
  have hany : (load_archive fs).any
      (fun d => d.timestamp == latestRun.timestamp) = true := by
    rw [List.any_eq_true]
    exact ⟨r, hr, by rw [hrts, hts]; simp⟩
  have : load_benchmark_data fs = load_archive fs := by
    rw [load_benchmark_data, hsent]
    simp only [if_true, hfiles, hany, if_pos]
  exact ⟨this, by rw [this]⟩

/-- Concrete inputs exercising C1: one archived run and a latest run sharing
the timestamp string. -/
def fsC1 : FS :=
  ⟨some [⟨"20240101", true, [some ⟨some "2024-01-01T00:00:00Z", some "aaaa", []⟩]⟩],
   ⟨true, [some ⟨some "2024-01-01T00:00:00Z", some "bbbb", []⟩]⟩⟩

/-- Witness for C1 at the concrete input `fsC1`. -/
theorem load_benchmark_data_skips_duplicate_latest_witness :
    load_benchmark_data fsC1 = load_archive fsC1 ∧
    (load_benchmark_data fsC1).length = (load_archive fsC1).length :=
  load_benchmark_data_skips_duplicate_latest fsC1 "2024-01-01T00:00:00Z"
    ⟨some "2024-01-01T00:00:00Z", some "bbbb", []⟩ [] rfl rfl rfl
    ⟨⟨some "2024-01-01T00:00:00Z", some "aaaa", []⟩, by decide, rfl⟩

/-- C2: an archive of directories each holding exactly one valid
`*_parsed.json` file, with no latest data, yields exactly one run per
subdirectory, ordered by the sorted order of the subdirectory names. -/
theorem load_benchmark_data_archive_sorted (fs : FS)
    (entries : List ArchiveSubdir) (runOf : ArchiveSubdir → BenchmarkRun)
    (harch : fs.archive = some entries)
    (hsent : fs.latest.sentinelExists = false)
    (hgood : ∀ d ∈ entries, d.isDir = true ∧ d.parsedFiles = [some (runOf d)]) :
    load_benchmark_data fs = (sortEntries entries).map runOf ∧
    (load_benchmark_data fs).length = entries.length := by
  have hload : load_benchmark_data fs = load_archive fs := by
    rw [load_benchmark_data, hsent]
    simp
  have harchEq : load_archive fs = (sortEntries entries).map runOf := by
    rw [load_archive, harch]
    refine filterMap_loadSubdir_eq_map _ _ (fun d hd => ?_)
    have hmem : d ∈ entries := (mem_sortEntries d entries).mp hd
    obtain ⟨hdir, hf⟩ := hgood d hmem
    exact loadSubdir_eq_of_good d (runOf d) [] hdir hf
  refine ⟨hload.trans harchEq, ?_⟩
  rw [hload, harchEq, List.length_map, length_sortEntries]

/-- Concrete entries exercising C2: two subdirectories listed out of name
order, each with one valid file. -/
def entriesC2 : List ArchiveSubdir :=
  [⟨"20240202", true, [some ⟨some "t2", some "cc", []⟩]⟩,
   ⟨"20240101", true, [some ⟨some "t1", some "dd", []⟩]⟩]

/-- Concrete filesystem exercising C2. -/
def fsC2 : FS := ⟨some entriesC2, ⟨false, []⟩⟩

/-- Run selector for the C2 witness. -/
def runOfC2 (d : ArchiveSubdir) : BenchmarkRun :=
  if d.name = "20240101" then ⟨some "t1", some "dd", []⟩
  else ⟨some "t2", some "cc", []⟩

/-- Witness for C2 at the concrete input `fsC2`. -/
theorem load_benchmark_data_archive_sorted_witness :
    load_benchmark_data fsC2 = (sortEntries entriesC2).map runOfC2 ∧
    (load_benchmark_data fsC2).length = entriesC2.length :=
  load_benchmark_data_archive_sorted fsC2 entriesC2 runOfC2 rfl rfl (by decide)

/-- C3: a single malformed (or missing) `*_parsed.json` file in one archive
subdirectory is skipped; every other subdirectory is loaded unchanged and in
order, so only the bad entry is excluded and the count drops by one. -/
theorem load_benchmark_data_skips_malformed (fs : FS)
    (entries s₁ s₂ : List ArchiveSubdir) (bad : ArchiveSubdir)
    (runOf : ArchiveSubdir → BenchmarkRun)
    (harch : fs.archive = some entries)
    (hsent : fs.latest.sentinelExists = false)
    (hsort : sortEntries entries = s₁ ++ bad :: s₂)
    (hbadDir : bad.isDir = true)
    (hbadFile : ∃ rest, bad.parsedFiles = none :: rest)
    (hgood : ∀ d ∈ s₁ ++ s₂, d.isDir = true ∧ d.parsedFiles = [some (runOf d)]) :
    load_benchmark_data fs = (s₁ ++ s₂).map runOf ∧
    (load_benchmark_data fs).length = entries.length - 1 := by
  obtain ⟨rest, hrest⟩ := hbadFile
  have hbad : loadSubdir bad = none := by
    simp [loadSubdir, hbadDir, hrest]
  have hload : load_benchmark_data fs = load_archive fs := by
    rw [load_benchmark_data, hsent]
    simp
  have h₁ : ∀ d ∈ s₁, loadSubdir d = some (runOf d) := by
    intro d hd
    obtain ⟨hdir, hf⟩ := hgood d (List.mem_append_left _ hd)
    exact loadSubdir_eq_of_good d (runOf d) [] hdir hf
  have h₂ : ∀ d ∈ s₂, loadSubdir d = some (runOf d) := by
    intro d hd
    obtain ⟨hdir, hf⟩ := hgood d (List.mem_append_right _ hd)
    exact loadSubdir_eq_of_good d (runOf d) [] hdir hf
  have harchEq : load_archive fs = (s₁ ++ s₂).map runOf := by
    simp only [load_archive, harch, hsort]
    rw [List.filterMap_append, List.filterMap_cons, hbad]
    rw [filterMap_loadSubdir_eq_map s₁ runOf h₁, filterMap_loadSubdir_eq_map s₂ runOf h₂]
    simp
  have hlen : entries.length = s₁.length + s₂.length + 1 := by
    have := length_sortEntries entries
    rw [hsort] at this
    simp at this
    omega
  refine ⟨hload.trans harchEq, ?_⟩
  rw [hload, harchEq, List.length_map, List.length_append, hlen]
  omega

/-- First good subdirectory of the C3 witness. -/
def goodC3a : ArchiveSubdir := ⟨"01", true, [some ⟨some "t1", some "dd", []⟩]⟩

/-- Second good subdirectory of the C3 witness. -/
def goodC3b : ArchiveSubdir := ⟨"03", true, [some ⟨some "t3", some "cc", []⟩]⟩

/-- Subdirectory of the C3 witness whose file fails to load. -/
def badC3 : ArchiveSubdir := ⟨"02", true, [none]⟩

/-- Concrete entries exercising C3: the middle subdirectory (in sorted
order) holds a file whose load fails. -/
def entriesC3 : List ArchiveSubdir := [goodC3b, goodC3a, badC3]

/-- Concrete filesystem exercising C3. -/
def fsC3 : FS := ⟨some entriesC3, ⟨false, []⟩⟩

/-- Run selector for the C3 witness. -/
def runOfC3 (d : ArchiveSubdir) : BenchmarkRun :=
  if d.name = "01" then ⟨some "t1", some "dd", []⟩
  else ⟨some "t3", some "cc", []⟩

/-- Witness for C3 at the concrete input `fsC3`. -/
theorem load_benchmark_data_skips_malformed_witness :
    load_benchmark_data fsC3 = ([goodC3a] ++ [goodC3b]).map runOfC3 ∧
    (load_benchmark_data fsC3).length = entriesC3.length - 1 :=
  load_benchmark_data_skips_malformed fsC3 entriesC3 [goodC3a] [goodC3b]
    badC3 runOfC3 rfl rfl (by decide) rfl ⟨[], rfl⟩ (by decide)

/-- C10: the archive phase never deduplicates by timestamp and reads only the
first `*_parsed.json` file of each subdirectory: with no latest data, every
directory entry whose first file loads contributes exactly that one run (any
further files are ignored), even when two subdirectories carry exactly equal
timestamps. -/
theorem load_benchmark_data_archive_no_dedup (fs : FS)
    (entries : List ArchiveSubdir) (runOf : ArchiveSubdir → BenchmarkRun)
    (harch : fs.archive = some entries)
    (hsent : fs.latest.sentinelExists = false)
    (hgood : ∀ d ∈ entries, d.isDir = true ∧
      ∃ extra, d.parsedFiles = some (runOf d) :: extra) :
    load_benchmark_data fs = (sortEntries entries).map runOf ∧
    (load_benchmark_data fs).length = entries.length := by
  have hload : load_benchmark_data fs = load_archive fs := by
    rw [load_benchmark_data, hsent]
    simp
  have harchEq : load_archive fs = (sortEntries entries).map runOf := by
    rw [load_archive, harch]
    refine filterMap_loadSubdir_eq_map _ _ (fun d hd => ?_)
    have hmem : d ∈ entries := (mem_sortEntries d entries).mp hd
    obtain ⟨hdir, extra, hf⟩ := hgood d hmem
    exact loadSubdir_eq_of_good d (runOf d) extra hdir hf
  refine ⟨hload.trans harchEq, ?_⟩
  rw [hload, harchEq, List.length_map, length_sortEntries]

/-- Concrete entries exercising C10: two subdirectories with exactly equal
timestamps, the second holding two `*_parsed.json` files. -/
def entriesC10 : List ArchiveSubdir :=
  [⟨"a", true, [some ⟨some "t", some "aa", []⟩]⟩,
   ⟨"b", true, [some ⟨some "t", some "bb", []⟩, some ⟨some "x", some "zz", []⟩]⟩]

/-- Concrete filesystem exercising C10. -/
def fsC10 : FS := ⟨some entriesC10, ⟨false, []⟩⟩

/-- Run selector for the C10 witness. -/
def runOfC10 (d : ArchiveSubdir) : BenchmarkRun :=
  if d.name = "a" then ⟨some "t", some "aa", []⟩
  else ⟨some "t", some "bb", []⟩

/-- Witness for C10 at the concrete input `fsC10`: both equal-timestamp runs
are returned and the second file of subdirectory `b` is ignored. -/
theorem load_benchmark_data_archive_no_dedup_witness :
    load_benchmark_data fsC10 = (sortEntries entriesC10).map runOfC10 ∧
    (load_benchmark_data fsC10).length = entriesC10.length :=
  load_benchmark_data_archive_no_dedup fsC10 entriesC10 runOfC10 rfl rfl
    (by
      intro d hd
      simp only [entriesC10, List.mem_cons, List.mem_singleton] at hd
      rcases hd with h | h | h
      · subst h
        exact ⟨rfl, [], by decide⟩
      · subst h
        exact ⟨rfl, [some ⟨some "x", some "zz", []⟩], by decide⟩
      · exact absurd h (by simp))

/-- A filesystem effect performed by the script: directory creation or a file
write. Paths are relative to the benchmark directory. -/
inductive FsAction where
  | mkdir (path : String)
  | write (path : String) (content : String)
deriving DecidableEq

/-- One row of the `df_data` table built at lines 86-99: a denormalized
(run, sample) pair. -/
structure FlattenedRecord where
  timestamp : String
  commit : String
  benchmark : String
  group : String
  mean_ms : ℚ
  std_dev_ms : ℚ
deriving DecidableEq

/-- The `df_data` flattening of lines 86-99: `entry.get('timestamp', '')`,
`entry.get('commit', 'unknown')[:8]`, one row per benchmark sample, with
`std_dev_ms = std_dev_ns / 1e6`. -/
def flattenRuns (data : List BenchmarkRun) : List FlattenedRecord :=
  data.flatMap (fun e =>
    e.benchmarks.map (fun b =>
      ⟨e.timestamp.getD "", (e.commit.getD "unknown").take 8,
       b.name, b.group, b.mean_ms, b.std_dev_ns / 1000000⟩))

/-- Insertion-ordered grouping dictionary of lines 249-254: append the sample
to its group, creating the group at the end on first sight. -/
def addSample (groups : List (String × List ℚ)) (g : String) (v : ℚ) :
    List (String × List ℚ) :=
  if groups.any (fun p => p.1 == g) then
    groups.map (fun p => if p.1 == g then (p.1, p.2 ++ [v]) else p)
  else groups ++ [(g, [v])]

/-- The `groups` dictionary of `_generate_text_summary` built over all
samples of the most recent run. -/
def groupSamples (benchmarks : List Benchmark) : List (String × List ℚ) :=
  benchmarks.foldl (fun gs b => addSample gs b.group b.mean_ms) []

/-- Minimum of a sample list (Python `min`; lists here are nonempty). -/
def listMin : List ℚ → ℚ
  | [] => 0
  | x :: xs => xs.foldl min x

/-- Maximum of a sample list (Python `max`; lists here are nonempty). -/
def listMax : List ℚ → ℚ
  | [] => 0
  | x :: xs => xs.foldl max x

/-- `BenchmarkVisualizer._generate_text_summary` (lines 234-265). `fmt`
abstracts Python float formatting with `:.2f`; it is applied to the exact
rational values the source computes. -/
def generate_text_summary (fmt : ℚ → String) (data : List BenchmarkRun) : String :=
  match data.getLast? with
  | none => "No benchmark data available for visualization.\n"
  | some latest =>
    let benchmarks := latest.benchmarks
    let base : List String :=
      ["## üìä Performance Summary (Text)\n",
       "**Last Updated**: " ++ latest.timestamp.getD "unknown",
       "**Commit**: " ++ (latest.commit.getD "unknown").take 8,
       "**Total Benchmarks**: " ++ toString benchmarks.length ++ "\n"]
    let summary :=
      if benchmarks.isEmpty then base
      else
        base ++ ["### Performance by Group"] ++
          (groupSamples benchmarks).map (fun p =>
            "- **" ++ p.1 ++ "**: " ++ fmt (p.2.sum / (p.2.length : ℚ)) ++
            "ms avg (min: " ++ fmt (listMin p.2) ++ "ms, max: " ++
            fmt (listMax p.2) ++ "ms)") ++ [""]
    String.intercalate "\n" summary

/-- Opaque image bytes produced by the four matplotlib chart renderers; the
rendering itself (lines 124-232) is outside the embedding. -/
structure ChartPngs where
  trendsPng : String
  groupPng : String
  recentPng : String
  distPng : String

/-- `_generate_overall_trends_chart` (lines 124-151): saves one image and
returns its markdown reference. -/
def generate_overall_trends_chart (png : String) : List FsAction × String :=
  ([FsAction.write "reports/performance_trends.png" png],
   "![Performance Trends](./performance_trends.png)\n")

/-- `_generate_group_performance_chart` (lines 153-184). -/
def generate_group_performance_chart (png : String) : List FsAction × String :=
  ([FsAction.write "reports/group_performance.png" png],
   "![Group Performance](./group_performance.png)\n")

/-- `_generate_recent_changes_chart` (lines 186-213). -/
def generate_recent_changes_chart (png : String) : List FsAction × String :=
  ([FsAction.write "reports/recent_changes.png" png],
   "![Recent Changes](./recent_changes.png)\n")

/-- `_generate_distribution_chart` (lines 215-232). -/
def generate_distribution_chart (png : String) : List FsAction × String :=
  ([FsAction.write "reports/performance_distribution.png" png],
   "![Performance Distribution](./performance_distribution.png)\n")

/-- `BenchmarkVisualizer.generate_performance_trends` (lines 80-122): when
charting is unavailable or there is no data (or the flattened table is
empty), the text summary with no file writes; otherwise the four chart
images and the newline-joined markdown references. Returns the pair of the
file writes performed and the returned string. -/
def generate_performance_trends (vis : Bool) (pngs : ChartPngs)
    (fmt : ℚ → String) (data : List BenchmarkRun) : List FsAction × String :=
  if !vis || data.isEmpty then ([], generate_text_summary fmt data)
  else
    let df_data := flattenRuns data
    if df_data.isEmpty then ([], generate_text_summary fmt data)
    else
      let c1 := generate_overall_trends_chart pngs.trendsPng
      let c2 := generate_group_performance_chart pngs.groupPng
      let c3 := generate_recent_changes_chart pngs.recentPng
      let c4 := generate_distribution_chart pngs.distPng
      (c1.1 ++ c2.1 ++ c3.1 ++ c4.1,
       String.intercalate "\n" [c1.2, c2.2, c3.2, c4.2])

/-- C5: on an empty run sequence `generate_performance_trends` returns
exactly the sentence "No benchmark data available for visualization."
followed by a single newline, regardless of charting availability, chart
bytes, and float formatter. -/
theorem generate_performance_trends_empty (vis : Bool) (pngs : ChartPngs)
    (fmt : ℚ → String) :
    (generate_performance_trends vis pngs fmt []).2 =
      "No benchmark data available for visualization.\n" := by
  cases vis <;> rfl

/-- Literal part of the dashboard HTML template (lines 269-274) up to the
page title text. -/
def index_html_pre : String :=
  "<!DOCTYPE html>\n<html lang=\"en\">\n<head>\n    <meta charset=\"UTF-8\">\n    <meta name=\"viewport\" content=\"width=device-width, initial-scale=1.0\">\n    <title>"

/-- The page title text of the dashboard HTML template (line 274). -/
def index_html_title : String := "LSPbridge Benchmark Dashboard"

/-- Literal part of the dashboard HTML template (lines 274-348) between the
title text and the interpolated `datetime.now()` value; doubled braces of the
Python f-string render as single braces. -/
def index_html_style : String :=
  "</title>\n    <style>\n        body \x7b\n            font-family: -apple-system, BlinkMacSystemFont, \x27Segoe UI\x27, Roboto, sans-serif;\n            line-height: 1.6;\n            color: #333;\n            max-width: 1200px;\n            margin: 0 auto;\n            padding: 20px;\n            background-color: #f5f5f5;\n        \x7d\n        .header \x7b\n            background: linear-gradient(135deg, #667eea 0%, #764ba2 100%);\n            color: white;\n            padding: 40px 20px;\n            border-radius: 10px;\n            text-align: center;\n            margin-bottom: 30px;\n        \x7d\n        .content \x7b\n            background: white;\n            padding: 30px;\n            border-radius: 10px;\n            box-shadow: 0 2px 10px rgba(0,0,0,0.1);\n        \x7d\n        .metric \x7b\n            display: inline-block;\n            background: #f8f9fa;\n            padding: 15px 20px;\n            margin: 10px;\n            border-radius: 8px;\n            border-left: 4px solid #007bff;\n        \x7d\n        .chart \x7b\n            text-align: center;\n            margin: 30px 0;\n        \x7d\n        .chart img \x7b\n            max-width: 100%;\n            height: auto;\n            border-radius: 8px;\n            box-shadow: 0 2px 8px rgba(0,0,0,0.1);\n        \x7d\n        .footer \x7b\n            text-align: center;\n            padding: 20px;\n            color: #666;\n            font-size: 0.9em;\n        \x7d\n        h1, h2, h3 \x7b color: #2c3e50; \x7d\n        .status \x7b\n            padding: 8px 16px;\n            border-radius: 20px;\n            display: inline-block;\n            font-weight: bold;\n            text-transform: uppercase;\n            font-size: 0.8em;\n        \x7d\n        .status.good \x7b background: #d4edda; color: #155724; \x7d\n        .status.warning \x7b background: #fff3cd; color: #856404; \x7d\n        .status.error \x7b background: #f8d7da; color: #721c24; \x7d\n    </style>\n</head>\n<body>\n    <div class=\"header\">\n        <h1>üöÄ LSPbridge Performance Dashboard</h1>\n        <p>Automated performance tracking and regression detection</p>\n        <span class=\"status good\">System Healthy</span>\n    </div>\n    \n    <div class=\"content\">\n        <div class=\"metrics\">\n            <div class=\"metric\">\n                <strong>Last Updated</strong><br>\n                "

/-- Literal part of the dashboard HTML template (lines 348-360) between the
interpolated time and the interpolated trends content. -/
def index_html_mid : String :=
  "\n            </div>\n            <div class=\"metric\">\n                <strong>Monitoring</strong><br>\n                7 Benchmark Groups\n            </div>\n            <div class=\"metric\">\n                <strong>Threshold</strong><br>\n                15% Regression Alert\n            </div>\n        </div>\n        \n        "

/-- Literal part of the dashboard HTML template (lines 360-375) after the
interpolated trends content. -/
def index_html_post : String :=
  "\n        \n        <h2>üìÅ Available Reports</h2>\n        <ul>\n            <li><a href=\"./latest/\">Latest Results</a></li>\n            <li><a href=\"./archive/\">Historical Archive</a></li>\n            <li><a href=\"https://github.com/your-org/lspbridge/actions\">CI Pipeline</a></li>\n        </ul>\n    </div>\n    \n    <div class=\"footer\">\n        Generated by LSPbridge Benchmark Dashboard | \n        <a href=\"https://github.com/your-org/lspbridge\">View Source</a>\n    </div>\n</body>\n</html>"

/-- `BenchmarkVisualizer.generate_index_html` (lines 267-376). The Python
f-string interpolates `datetime.now().strftime('%Y-%m-%d %H:%M:%S')` — a
clock read — and `trends_content`; `now` is the formatted clock value at the
moment of the call. -/
def generate_index_html (now trends_content : String) : String :=
  index_html_pre ++ index_html_title ++ index_html_style ++ now ++
    index_html_mid ++ trends_content ++ index_html_post

/-- Literal part of the README template (lines 405-407) before the
interpolated trends content. -/
def readme_pre : String := "# LSPbridge Benchmark Dashboard\n\n"

/-- Literal part of the README template (lines 407-433) between the
interpolated trends content and the interpolated generation time. -/
def readme_mid : String :=
  "\n\n## üîó Navigation\n\n- [üìä Interactive Dashboard](./index.html)\n- [üìÑ Latest Results](./latest/)\n- [üìö Historical Archive](./archive/)\n\n## üìà Performance Monitoring\n\nThis dashboard automatically tracks performance across all LSPbridge benchmarks:\n\n- **Context Extraction**: File parsing and semantic analysis performance\n- **Context Ranking**: Algorithm efficiency for relevance scoring  \n- **Diagnostic Prioritization**: Error categorization and sorting speed\n- **Memory Usage**: Memory consumption patterns and cache efficiency\n- **Concurrent Throughput**: Parallel processing performance\n- **Cache Performance**: Hit rates and retrieval speeds\n- **Cold Start**: Initialization and startup performance\n\n## üö® Regression Detection\n\n- **Threshold**: 15% performance degradation triggers alerts\n- **Memory Threshold**: 20% memory increase triggers warnings  \n- **Cache Threshold**: 10% cache hit rate decrease triggers investigation\n\nGenerated: "

/-- The README document written at lines 403-434: the trends content inside
fixed documentation text, with a second `datetime.now()` read at the end. -/
def readme_md (trends now : String) : String :=
  readme_pre ++ trends ++ readme_mid ++ now ++ "\n"

/-- `BenchmarkVisualizer.run` (lines 378-436) as its trace of filesystem
effects: create the reports directory, perform the chart writes of
`generate_performance_trends`, then write `index.html` and `README.md`.
`nowIndex` and `nowReadme` are the two `datetime.now()` reads (lines 348 and
433). -/
def run (fs : FS) (vis : Bool) (pngs : ChartPngs) (fmt : ℚ → String)
    (nowIndex nowReadme : String) : List FsAction :=
  let data := load_benchmark_data fs
  let trends := generate_performance_trends vis pngs fmt data
  FsAction.mkdir "reports" ::
    (trends.1 ++
      [FsAction.write "reports/index.html" (generate_index_html nowIndex trends.2),
       FsAction.write "reports/README.md" (readme_md trends.2 nowReadme)])

/-- An exception value raised during `run()`. Every exception the body of
`run()` can raise (I/O errors, `KeyError`, matplotlib failures, ...) is a
subclass of Python `Exception`, the class caught at lines 452-454. -/
structure RunError where
  msg : String

/-- Execution of `visualizer.run()` under an optional injected fault: with no
fault, `run` completes with its full effect trace; a fault `(e, k)` models an
exception `e` raised after the first `k` effects have happened. -/
def runWithFault (fs : FS) (vis : Bool) (pngs : ChartPngs) (fmt : ℚ → String)
    (nowIndex nowReadme : String) (fault : Option (RunError × Nat)) :
    Except RunError Unit × List FsAction :=
  match fault with
  | none => (Except.ok (), run fs vis pngs fmt nowIndex nowReadme)
  | some (e, k) => (Except.error e, (run fs vis pngs fmt nowIndex nowReadme).take k)

/-- `main` (lines 439-455) as exit status plus effect trace: resolve the
benchmark directory from `BENCHMARK_DIR` (default `benchmark-results`); when
it does not exist (`bench = none`), create it and return; otherwise execute
`run()` under `try`, where `except Exception` swallows any raised exception,
so the script returns normally — exit status 0 — in every case. -/
def main_entry (env : Option String) (bench : Option FS) (vis : Bool)
    (pngs : ChartPngs) (fmt : ℚ → String) (nowIndex nowReadme : String)
    (fault : Option (RunError × Nat)) : Nat × List FsAction :=
  let benchmark_dir := env.getD "benchmark-results"
  match bench with
  | none => (0, [FsAction.mkdir benchmark_dir])
  | some fs =>
    match runWithFault fs vis pngs fmt nowIndex nowReadme fault with
    | (Except.ok _, acts) => (0, acts)
    | (Except.error _, acts) => (0, acts)

/-- Content a file ends up with after an effect trace: the last write to the
path, if any. -/
def writtenContent (acts : List FsAction) (p : String) : Option String :=
  acts.foldl (fun acc a =>
    match a with
    | FsAction.write q c => if q = p then some c else acc
    | FsAction.mkdir _ => acc) none

/-- The chart-write trace of `generate_performance_trends` is either empty
(text-summary paths) or exactly the four chart image writes. -/
theorem trends_actions_cases (vis : Bool) (pngs : ChartPngs)
    (fmt : ℚ → String) (data : List BenchmarkRun) :
    (generate_performance_trends vis pngs fmt data).1 = [] ∨
    (generate_performance_trends vis pngs fmt data).1 =
      [FsAction.write "reports/performance_trends.png" pngs.trendsPng,
       FsAction.write "reports/group_performance.png" pngs.groupPng,
       FsAction.write "reports/recent_changes.png" pngs.recentPng,
       FsAction.write "reports/performance_distribution.png" pngs.distPng] := by
  by_cases h1 : (!vis || data.isEmpty) = true
  · left
    simp [generate_performance_trends, h1]
  · by_cases h2 : (flattenRuns data).isEmpty = true
    · left
      simp [generate_performance_trends, h1, h2]
    · right
      simp [generate_performance_trends, h1, h2, generate_overall_trends_chart,
            generate_group_performance_chart, generate_recent_changes_chart,
            generate_distribution_chart]

/-- C4: the exit status of the top-level entry point is 0 for every input:
in particular for every exception raised during `run()` (any injected fault),
and for every filesystem condition, including a missing benchmark
directory. -/
theorem main_exit_code_zero (env : Option String) (bench : Option FS)
    (vis : Bool) (pngs : ChartPngs) (fmt : ℚ → String)
    (nowIndex nowReadme : String) (fault : Option (RunError × Nat)) :
    (main_entry env bench vis pngs fmt nowIndex nowReadme fault).1 = 0 := by
  rcases bench with _ | fs
  · rfl
  · rcases fault with _ | ⟨e, k⟩ <;> rfl

/-- C6: the dashboard page always contains the literal title text and embeds
the exact trends-content string passed in, unmodified and contiguous. -/
theorem generate_index_html_contains (now trends_content : String) :
    (∃ p q, generate_index_html now trends_content =
      p ++ "LSPbridge Benchmark Dashboard" ++ q) ∧
    (∃ p q, generate_index_html now trends_content = p ++ trends_content ++ q) := by
  constructor
  · refine ⟨index_html_pre,
      index_html_style ++ now ++ index_html_mid ++ trends_content ++ index_html_post, ?_⟩
    simp [generate_index_html, index_html_title, String.append_assoc]
  · refine ⟨index_html_pre ++ index_html_title ++ index_html_style ++ now ++ index_html_mid,
      index_html_post, ?_⟩
    simp [generate_index_html, String.append_assoc]

/-- C7 counterexample: `generate_index_html` is not a function of
`trends_content` alone — two calls with the identical trends string but
different clock readings (the interpolated `datetime.now()` value) return
different pages. -/
theorem generate_index_html_not_pure : ¬ (generate_index_html "2025-01-01 00:00:00" "" = generate_index_html "2025-01-02 00:00:00" "") := by
  intro h
  have h2 := congrArg String.data h
  simp only [generate_index_html, String.data_append] at h2
  have h3 := List.append_cancel_right h2
  have h4 := List.append_cancel_right h3
  have h5 := List.append_cancel_right h4
  have h6 := List.append_cancel_left h5
  exact absurd h6 (by decide)

/-- C7 amended: the page is a pure function of the pair (clock reading,
trends content): two invocations that see the same formatted time and the
same trends string return identical output; no other state enters. -/
theorem generate_index_html_deterministic (now₁ now₂ t₁ t₂ : String)
    (hn : now₁ = now₂) (ht : t₁ = t₂) :
    generate_index_html now₁ t₁ = generate_index_html now₂ t₂ := by
  rw [hn, ht]

/-- Witness for the amended C7 at concrete inputs. -/
theorem generate_index_html_deterministic_witness :
    generate_index_html "2025-01-01 00:00:00" "trends" =
      generate_index_html "2025-01-01 00:00:00" "trends" :=
  generate_index_html_deterministic "2025-01-01 00:00:00" "2025-01-01 00:00:00"
    "trends" "trends" rfl rfl

/-- C8: every invocation of `run()` ends with `index.html` and `README.md`
written in the reports directory, and the trends-content string embedded in
the README equals the one embedded in the dashboard page. -/
theorem run_writes_index_and_readme (fs : FS) (vis : Bool) (pngs : ChartPngs)
    (fmt : ℚ → String) (nowIndex nowReadme : String) :
    ∃ trends,
      writtenContent (run fs vis pngs fmt nowIndex nowReadme)
        "reports/index.html" = some (generate_index_html nowIndex trends) ∧
      writtenContent (run fs vis pngs fmt nowIndex nowReadme)
        "reports/README.md" = some (readme_md trends nowReadme) := by
  refine ⟨(generate_performance_trends vis pngs fmt (load_benchmark_data fs)).2, ?_, ?_⟩ <;>
    rcases trends_actions_cases vis pngs fmt (load_benchmark_data fs) with h | h <;>
      simp [run, writtenContent, h, List.foldl_append]

/-- C9: when the benchmark directory does not exist, `main` creates exactly
that directory (empty) and returns at once — no reports directory, no
`index.html`, no `README.md`, and no chart file is written on this path. -/
theorem main_missing_benchmark_dir (env : Option String) (vis : Bool)
    (pngs : ChartPngs) (fmt : ℚ → String) (nowIndex nowReadme : String)
    (fault : Option (RunError × Nat)) :
    main_entry env none vis pngs fmt nowIndex nowReadme fault =
      (0, [FsAction.mkdir (env.getD "benchmark-results")]) ∧
    ∀ p c, FsAction.write p c ∉ (main_entry env none vis pngs fmt nowIndex nowReadme fault).2 := by
  refine ⟨rfl, ?_⟩
  intro p c
  simp [main_entry]
